import Mathlib

/-!
Verification development for the mineplace-backend repository.

The two components under study are the catalog query engine
(src/api/addon.py, get_addons) and the upload consistency protocol
(src/api/version.py, add_new_addon_version and delete_addon_version).
The Python handlers are embedded shallowly as pure Lean functions over an
explicit world state (database rows, filesystem paths, log lines), with
the outcomes of the external collaborators (database commit, file write,
file delete) supplied by explicit oracles.  Machine integers do not occur;
SHA-256 is modelled bit-faithfully on Nat with explicit reduction mod 2^32.
-/

/-! ## SHA-256 (hashlib.sha256(file_content).hexdigest() in src/api/version.py, line 177) -/

/-- Modulus for 32-bit words: 2^32. -/
def M32 : Nat := 4294967296

/-- Right rotation of a 32-bit word. -/
def rotr32 (n x : Nat) : Nat :=
  ((x >>> n) ||| (x <<< (32 - n))) % M32

/-- Small sigma 0 of the SHA-256 message schedule. -/
def ssig0 (x : Nat) : Nat := (rotr32 7 x) ^^^ (rotr32 18 x) ^^^ (x >>> 3)

/-- Small sigma 1 of the SHA-256 message schedule. -/
def ssig1 (x : Nat) : Nat := (rotr32 17 x) ^^^ (rotr32 19 x) ^^^ (x >>> 10)

/-- Big sigma 0 of the SHA-256 compression function. -/
def bsig0 (x : Nat) : Nat := (rotr32 2 x) ^^^ (rotr32 13 x) ^^^ (rotr32 22 x)

/-- Big sigma 1 of the SHA-256 compression function. -/
def bsig1 (x : Nat) : Nat := (rotr32 6 x) ^^^ (rotr32 11 x) ^^^ (rotr32 25 x)

/-- Choice function of the SHA-256 compression function. -/
def chF (e f g : Nat) : Nat := (e &&& f) ^^^ ((e ^^^ 4294967295) &&& g)

/-- Majority function of the SHA-256 compression function. -/
def majF (a b c : Nat) : Nat := (a &&& b) ^^^ (a &&& c) ^^^ (b &&& c)

/-- Round constants of SHA-256 (fractional parts of cube roots of the first
64 primes, as 32-bit words). -/
def shaK : Array Nat :=
  #[1116352408, 1899447441, 3049323471, 3921009573, 961987163, 1508970993, 2453635748, 2870763221,
    3624381080, 310598401, 607225278, 1426881987, 1925078388, 2162078206, 2614888103, 3248222580,
    3835390401, 4022224774, 264347078, 604807628, 770255983, 1249150122, 1555081692, 1996064986,
    2554220882, 2821834349, 2952996808, 3210313671, 3336571891, 3584528711, 113926993, 338241895,
    666307205, 773529912, 1294757372, 1396182291, 1695183700, 1986661051, 2177026350, 2456956037,
    2730485921, 2820302411, 3259730800, 3345764771, 3516065817, 3600352804, 4094571909, 275423344,
    430227734, 506948616, 659060556, 883997877, 958139571, 1322822218, 1537002063, 1747873779,
    1955562222, 2024104815, 2227730452, 2361852424, 2428436474, 2756734187, 3204031479, 3329325298]

/-- Initial hash state of SHA-256 (fractional parts of square roots of the
first 8 primes, as 32-bit words). -/
def shaH0 : List Nat :=
  [1779033703, 3144134277, 1013904242, 2773480762, 1359893119, 2600822924, 528734635, 1541459225]

/-- Extends the 16 words of one block to the 64-entry SHA-256 message schedule. -/
def msgSchedule (w0 : Array Nat) : Array Nat :=
  (List.range 48).foldl
    (fun w i =>
      w.push ((w.getD i 0 + ssig0 (w.getD (i + 1) 0) + w.getD (i + 9) 0 +
               ssig1 (w.getD (i + 14) 0)) % M32))
    w0

/-- SHA-256 compression of one 16-word block into the running 8-word state. -/
def compressBlock (h : List Nat) (block : Array Nat) : List Nat :=
  let w := msgSchedule block
  let init : Nat × Nat × Nat × Nat × Nat × Nat × Nat × Nat :=
    (h.getD 0 0, h.getD 1 0, h.getD 2 0, h.getD 3 0, h.getD 4 0, h.getD 5 0, h.getD 6 0, h.getD 7 0)
  let fin := (List.range 64).foldl
    (fun st i =>
      let (a, b, c, d, e, f, g, hh) := st
      let t1 := (hh + bsig1 e + chF e f g + shaK.getD i 0 + w.getD i 0) % M32
      let t2 := (bsig0 a + majF a b c) % M32
      ((t1 + t2) % M32, a, b, c, (d + t1) % M32, e, f, g))
    init
  let (a, b, c, d, e, f, g, hh) := fin
  [(h.getD 0 0 + a) % M32, (h.getD 1 0 + b) % M32, (h.getD 2 0 + c) % M32,
   (h.getD 3 0 + d) % M32, (h.getD 4 0 + e) % M32, (h.getD 5 0 + f) % M32,
   (h.getD 6 0 + g) % M32, (h.getD 7 0 + hh) % M32]

/-- Appends the SHA-256 padding (0x80, zeros, 64-bit big-endian bit length)
to a byte sequence, yielding a length that is a multiple of 64. -/
def padMessage (msg : List Nat) : List Nat :=
  let len := msg.length
  let k := (120 - ((len + 1) % 64)) % 64
  msg ++ [128] ++ List.replicate k 0 ++
    ((List.range 8).map (fun i => ((8 * len) >>> (56 - 8 * i)) % 256))

/-- Packs bytes into 32-bit big-endian words, four bytes at a time. -/
def bytesToWords : List Nat → List Nat
  | b0 :: b1 :: b2 :: b3 :: rest =>
      ((((b0 <<< 8) ||| b1) <<< 8 ||| b2) <<< 8 ||| b3) :: bytesToWords rest
  | _ => []

/-- Fuel-indexed fold of the SHA-256 compression over the padded message,
64 bytes at a time.  Every step consumes 64 bytes, so any fuel of at least
the message length yields the full fold; the explicit fuel keeps the
recursion structural and therefore evaluable inside the kernel. -/
def sha256blocksFuel : Nat → List Nat → List Nat → List Nat
  | 0, h, _ => h
  | _ + 1, h, [] => h
  | f + 1, h, b :: rest =>
      sha256blocksFuel f (compressBlock h ((bytesToWords ((b :: rest).take 64)).toArray))
        (rest.drop 63)

/-- Folds the SHA-256 compression over the padded message, 64 bytes at a time. -/
def sha256blocks (h : List Nat) (padded : List Nat) : List Nat :=
  sha256blocksFuel padded.length h padded

/-- Lowercase hexadecimal digit for a value below 16. -/
def hexDigit (n : Nat) : Char :=
  if n < 10 then Char.ofNat (48 + n) else Char.ofNat (87 + n)

/-- Lowercase 8-digit hexadecimal rendering of a 32-bit word. -/
def word32hex (x : Nat) : String :=
  String.mk ((List.range 8).map (fun i => hexDigit ((x >>> (28 - 4 * i)) &&& 15)))

/-- SHA-256 hex digest of a byte sequence, as produced by
hashlib.sha256(file_content).hexdigest().  Validated against the NIST
vectors for the empty message, for abc and for one million repetitions
of the letter a. -/
def sha256hex (msg : List Nat) : String :=
  String.join ((sha256blocks shaH0 (padMessage msg)).map word32hex)

/-! ## SQL LIKE matching (the ilike filters of get_addons, src/api/addon.py lines 104-124) -/

/-- Lowercases a string character by character.  This matches the Python
str.lower call of the source on the ASCII data appearing in this
development; it is defined over the character list so that the kernel can
evaluate it on concrete inputs. -/
def lowerString (s : String) : String :=
  String.mk (s.data.map Char.toLower)

/-- Fuel-indexed core of the SQL LIKE matcher.  Every recursive call
strictly shrinks the combined length of pattern and subject, so any fuel
of at least that combined length plus one yields the standard LIKE
semantics; the explicit fuel keeps the recursion structural and therefore
evaluable inside the kernel. -/
def likeMatchesFuel : Nat → List Char → List Char → Bool
  | 0, _, _ => false
  | _ + 1, [], s => s.isEmpty
  | f + 1, '%' :: ps, s =>
      likeMatchesFuel f ps s ||
        (match s with
         | [] => false
         | _ :: t => likeMatchesFuel f ('%' :: ps) t)
  | f + 1, '_' :: ps, s =>
      (match s with
       | [] => false
       | _ :: t => likeMatchesFuel f ps t)
  | f + 1, a :: ps, s =>
      (match s with
       | [] => false
       | c :: t => (a == c) && likeMatchesFuel f ps t)

/-- Matches a SQL LIKE pattern against a string, both given as char lists.
The percent sign matches any sequence of characters and the underscore
matches exactly one character, exactly as in the SQL LIKE operator that
backs the SQLAlchemy ilike calls of get_addons (no escape character is
supplied there). -/
def likeMatches (p s : List Char) : Bool :=
  likeMatchesFuel (p.length + s.length + 1) p s

/-- Case-insensitive containment test used by the source: the SQLAlchemy
expression column.ilike(percent ++ term ++ percent).  Matching is performed
on the lowercased pattern and subject, reflecting case insensitivity. -/
def ilikeContains (term field : String) : Bool :=
  likeMatches ((lowerString ("%" ++ term ++ "%")).data) ((lowerString field).data)

/-- Tests whether needle occurs as a contiguous sublist of hay. -/
def containsSub (needle : List Char) : List Char → Bool
  | [] => needle.isEmpty
  | c :: t => needle.isPrefixOf (c :: t) || containsSub needle t

/-- Modelled from the spec: case-insensitive substring containment, the
wording used by the specification for the search match (the source instead
uses SQL LIKE, whose wildcard characters make it a strictly coarser test). -/
def substrCI (term field : String) : Bool :=
  containsSub (lowerString term).data (lowerString field).data

/-! ## Filename extension extraction (os.path.splitext in src/api/version.py lines 179-183) -/

/-- Basename of a path given as chars: everything after the last slash. -/
def afterLastSlash (cs : List Char) : List Char :=
  cs.foldl (fun acc c => if c = '/' then [] else acc ++ [c]) []

/-- Extension of a basename per the CPython posixpath rule: the suffix from
the last dot onward, except that a candidate extension is rejected when
every character before that dot is itself a dot (hidden files such as
.bashrc have no extension). -/
def extOfBase (cs : List Char) : List Char :=
  let dotIdxs := (List.range cs.length).filter (fun i => cs.getD i ' ' == '.')
  match dotIdxs.getLast? with
  | none => []
  | some i => if (List.range i).all (fun j => cs.getD j ' ' == '.') then [] else cs.drop i

/-- Extension component of os.path.splitext. -/
def splitextExt (p : String) : String :=
  String.mk (extOfBase (afterLastSlash p.data))

/-- File extension derivation of add_new_addon_version (src/api/version.py
lines 179-183): empty when no filename was supplied, otherwise the splitext
extension when it is nonempty. -/
def extractedExtension (filename : Option String) : String :=
  match filename with
  | none => ""
  | some fn =>
    let ext := splitextExt fn
    if ext = "" then "" else ext

/-! ## Search string splitting (src/api/addon.py line 94) -/

/-- Splits a char list into maximal whitespace-free tokens, as the Python
str.split call with no arguments does; tokens are accumulated in reverse
in the first argument. -/
def wsTokens (cur : List Char) : List Char → List String
  | [] => if cur.isEmpty then [] else [String.mk cur.reverse]
  | c :: rest =>
    if c.isWhitespace then
      if cur.isEmpty then wsTokens [] rest
      else String.mk cur.reverse :: wsTokens [] rest
    else wsTokens (c :: cur) rest

/-- Search terms of a search string (src/api/addon.py line 94): the source
lowercases the string, splits it on whitespace, strips each piece and keeps
the nonempty ones.  Tokens produced by whitespace splitting contain no
whitespace, so the strip call of the source is the identity on them; the
final guard mirrors the comprehension filter. -/
def searchTermsOf (s : String) : List String :=
  (wsTokens [] (lowerString s).data).filter (fun t => t ≠ "")

/-! ## Data model (src/models/addon.py, user_likes.py, versions.py)

Opaque identifiers (UUID columns) and timestamps are represented by Nat. -/

/-- Addon type enumeration of src/models/addon.py. -/
inductive AddOnType where
  | Mod
  | ResourcePack
  | DataPack
  | Shader
  | Plugins
deriving DecidableEq, Repr

/-- One row of the addons table. -/
structure AddOnRow where
  uuid : Nat
  user_uuid : Nat
  name : String
  type : AddOnType
  short_description : String
  description : String
  downloads : Nat
  publish_date : Nat
  update_date : Nat
deriving DecidableEq, Repr

/-- One row of the user_likes table. -/
structure UserLikeRow where
  uuid : Nat
  user_uuid : Nat
  addon_uuid : Nat
  created_at : Nat
deriving DecidableEq, Repr

/-- One row of the versions table. -/
structure VersionRow where
  uuid : Nat
  addon_uuid : Nat
  version : String
  description : String
  download_url : String
  file_hash : String
  created_at : Nat
deriving DecidableEq, Repr

/-- The relational state visible to the two endpoints under study. -/
structure DB where
  addons : List AddOnRow
  likes : List UserLikeRow
  versions : List VersionRow
deriving DecidableEq, Repr

/-- Error taxonomy of the embedded endpoints.  Each constructor corresponds
to one raise site of the source, to the FastAPI regex validation of a
query parameter (which fires before the handler body), or to an unhandled
exception that the global handler of src/run.py turns into a 500 response;
payloads carry the dynamic parts of the detail message.  The
orderByIntArgument constructor stands for the sqlalchemy ArgumentError
raised when desc() receives the plain Python int 0 that
relevance_score_expr is left as whenever the search term loop never ran
(src/api/addon.py lines 96 and 158). -/
inductive ApiError where
  | validationError (param : String) (allowed : List String)
  | relevanceWithoutSearch
  | fieldNotSortable (field : String) (available : List String)
  | orderByIntArgument
  | addonNotFound
  | notAuthor
  | versionLabelExists (label : String)
  | fileTooLarge (measuredBytes : Nat)
  | emptyFile
  | hashAlreadyUploaded
  | urlInUse
  | fileSaveFailed (msg : String)
  | fileSaveUnexpected (msg : String)
  | dbInsertValueError (msg : String)
  | dbInsertFailed
  | versionNotFound
  | versionDeleteFailed
deriving DecidableEq, Repr

/-- HTTP status code attached to each error by the source. -/
def ApiError.statusCode : ApiError → Nat
  | .validationError _ _ => 422
  | .relevanceWithoutSearch => 400
  | .fieldNotSortable _ _ => 400
  | .orderByIntArgument => 500
  | .addonNotFound => 404
  | .notAuthor => 403
  | .versionLabelExists _ => 400
  | .fileTooLarge _ => 400
  | .emptyFile => 400
  | .hashAlreadyUploaded => 400
  | .urlInUse => 400
  | .fileSaveFailed _ => 500
  | .fileSaveUnexpected _ => 500
  | .dbInsertValueError _ => 400
  | .dbInsertFailed => 500
  | .versionNotFound => 404
  | .versionDeleteFailed => 500

/-! ## Catalog query engine (get_addons, src/api/addon.py lines 64-218) -/

/-- Query parameters of get_addons with their FastAPI defaults. -/
structure ListParams where
  page : Nat := 1
  per_page : Nat := 10
  type : Option AddOnType := none
  user_uuid : Option Nat := none
  search : Option String := none
  sort_by : String := "downloads"
  sort_order : String := "desc"
deriving Repr

/-- Python truthiness of the optional search string: present and nonempty. -/
def searchIsActive : Option String → Bool
  | none => false
  | some s => s != ""

/-- Search terms derived from the optional search parameter: empty when
the parameter is absent, the whitespace split of the lowercased string
otherwise. -/
def termsOfParam : Option String → List String
  | none => []
  | some s => searchTermsOf s

/-- One term of the search matches a row when its ilike test succeeds on
the name, the short description or the long description (the or_ filter
built per term on src/api/addon.py lines 118-124). -/
def termMatchesRow (t : String) (a : AddOnRow) : Bool :=
  ilikeContains t a.name || ilikeContains t a.short_description || ilikeContains t a.description

/-- Relevance score expression of src/api/addon.py lines 96-116: starting
from 0, every term adds 3 when it ilike-matches the name, 2 when it
ilike-matches the short description and 1 when it ilike-matches the long
description. -/
def rowRelevance (terms : List String) (a : AddOnRow) : Nat :=
  terms.foldl
    (fun acc t =>
      acc + (if ilikeContains t a.name then 3 else 0)
          + (if ilikeContains t a.short_description then 2 else 0)
          + (if ilikeContains t a.description then 1 else 0))
    0

/-- Modelled from the spec: the per-term per-field weighted sum described
by the specification, stated as a sum over terms of per-field weights.  It
is proved equal to the rowRelevance fold below. -/
def pairSum (terms : List String) (a : AddOnRow) : Nat :=
  (terms.map
    (fun t =>
      (if ilikeContains t a.name then 3 else 0) +
      (if ilikeContains t a.short_description then 2 else 0) +
      (if ilikeContains t a.description then 1 else 0))).sum

/-- Search filter stage of the main query (src/api/addon.py lines 93-128):
applied only when the search string is truthy and produced at least one
term; a row is kept when some term matches some field. -/
def searchFilteredOf (db : DB) (search : Option String) : List AddOnRow :=
  match search with
  | none => db.addons
  | some s =>
    if s = "" then db.addons
    else
      let terms := searchTermsOf s
      if terms.isEmpty then db.addons
      else db.addons.filter (fun a => terms.any (fun t => termMatchesRow t a))

/-- Like count of an addon: the outer-join count of user_likes rows grouped
by addon uuid (src/api/addon.py lines 84-89); addons without likes get 0. -/
def likesCountOf (db : DB) (a : AddOnRow) : Nat :=
  (db.likes.filter (fun l => l.addon_uuid == a.uuid)).length

/-- Type and owner filter stage (src/api/addon.py lines 136-139). -/
def typeOwnerFiltered (rows : List AddOnRow) (ty : Option AddOnType) (uu : Option Nat) :
    List AddOnRow :=
  let r1 := match ty with
    | none => rows
    | some t => rows.filter (fun a => a.type == t)
  match uu with
  | none => r1
  | some u => r1.filter (fun a => a.user_uuid == u)

/-- Rows of the main query before ordering: the filtered addons paired with
their like counts. -/
def joinedRows (db : DB) (search : Option String) (ty : Option AddOnType) (uu : Option Nat) :
    List (AddOnRow × Nat) :=
  (typeOwnerFiltered (searchFilteredOf db search) ty uu).map (fun a => (a, likesCountOf db a))

/-- Insertion into a list sorted by the boolean relation le. -/
def insertSorted (le : α → α → Bool) (x : α) : List α → List α
  | [] => [x]
  | y :: ys => if le x y then x :: y :: ys else y :: insertSorted le x ys

/-- Insertion sort by the boolean relation le. -/
def sortByLe (le : α → α → Bool) : List α → List α
  | [] => []
  | x :: xs => insertSorted le x (sortByLe le xs)

/-- Sort key selected by the sortable_fields dispatch of src/api/addon.py
lines 141-149 for a (row, likes count) pair.  The relevance branch is the
additive score expression; the empty-term relevance case never reaches
this key, because with no terms relevance_score_expr stays the plain
integer 0 and desc() rejects it before any ordering happens (modelled as
the orderByIntArgument error in get_addons). -/
def sortKeyOf (terms : List String) (field : String) (pr : AddOnRow × Nat) : Nat :=
  if field = "publish_date" then pr.1.publish_date
  else if field = "downloads" then pr.1.downloads
  else if field = "update_date" then pr.1.update_date
  else if field = "likes_count" then pr.2
  else rowRelevance terms pr.1

/-- Keys of the sortable_fields dictionary of src/api/addon.py lines
141-146, in insertion order. -/
def baseSortableFields : List String := ["publish_date", "downloads", "update_date", "likes_count"]

/-- Sortable fields available to a request: the base dictionary, plus
relevance exactly when relevance_score_expr is not None, which happens
exactly when the search string is truthy (src/api/addon.py lines 148-149). -/
def availableSortFields (searchActive : Bool) : List String :=
  baseSortableFields ++ (if searchActive then ["relevance"] else [])

/-- Ordering stage of get_addons (src/api/addon.py lines 157-169):
relevance always sorts descending; other fields follow sort_order. -/
def orderedRows (db : DB) (p : ListParams) : List (AddOnRow × Nat) :=
  let terms := termsOfParam p.search
  let rows := joinedRows db p.search p.type p.user_uuid
  let key := sortKeyOf terms p.sort_by
  if p.sort_by = "relevance" then sortByLe (fun x y => decide (key y ≤ key x)) rows
  else if p.sort_order = "desc" then sortByLe (fun x y => decide (key y ≤ key x)) rows
  else sortByLe (fun x y => decide (key x ≤ key y)) rows

/-- Rows satisfying the count query filters, in the order the source adds
its where clauses: type, owner, then search (src/api/addon.py lines
171-179). -/
def countQueryRows (db : DB) (ty : Option AddOnType) (uu : Option Nat) (search : Option String) :
    List AddOnRow :=
  let r1 := match ty with
    | none => db.addons
    | some t => db.addons.filter (fun a => a.type == t)
  let r2 := match uu with
    | none => r1
    | some u => r1.filter (fun a => a.user_uuid == u)
  match search with
  | none => r2
  | some s =>
    if s = "" then r2
    else
      let terms := searchTermsOf s
      if terms.isEmpty then r2
      else r2.filter (fun a => terms.any (fun t => termMatchesRow t a))

/-- Total count: count(distinct addons.uuid) under the count query filters
(src/api/addon.py lines 171-182). -/
def totalCountOf (db : DB) (ty : Option AddOnType) (uu : Option Nat) (search : Option String) :
    Nat :=
  ((countQueryRows db ty uu search).map (fun a => a.uuid)).dedup.length

/-- Response of get_addons.  Items keep the (addon, likes count) pairing of
the query rows; serialization of individual fields is outside the model. -/
structure AddOnListResponse where
  items : List (AddOnRow × Nat)
  total_count : Nat
  page : Nat
  per_page : Nat
deriving DecidableEq, Repr

/-- Values accepted by the FastAPI regex of the sort_by query parameter
(src/api/addon.py line 76). -/
def sortByRegexValues : List String :=
  ["name", "publish_date", "update_date", "downloads", "likes_count", "relevance"]

/-- The get_addons handler (src/api/addon.py lines 64-218) including the
FastAPI regex validation of sort_by and sort_order, which rejects other
values with a 422 before the handler body runs.  The body then checks the
relevance-needs-search rule and the sortable_fields membership; when
sort_by is relevance while the truthy search string produced no terms,
relevance_score_expr is still the plain Python int 0 and building the
order clause raises (desc() accepts column expressions and strings only),
which the global handler of src/run.py surfaces as a 500 — the
orderByIntArgument error here.  Otherwise the handler computes the total
count with the count query and pages the ordered rows with offset
(page - 1) * per_page and limit per_page. -/
def get_addons (db : DB) (p : ListParams) : Except ApiError AddOnListResponse :=
  if ¬ (p.sort_by ∈ sortByRegexValues) then
    .error (.validationError "sort_by" sortByRegexValues)
  else if ¬ (p.sort_order ∈ ["asc", "desc"]) then
    .error (.validationError "sort_order" ["asc", "desc"])
  else if searchIsActive p.search = false ∧ p.sort_by = "relevance" then
    .error .relevanceWithoutSearch
  else if ¬ (p.sort_by ∈ availableSortFields (searchIsActive p.search)) then
    .error (.fieldNotSortable p.sort_by (availableSortFields (searchIsActive p.search)))
  else if p.sort_by = "relevance" ∧ (termsOfParam p.search).isEmpty then
    .error .orderByIntArgument
  else
    let total := totalCountOf db p.type p.user_uuid p.search
    let sorted := orderedRows db p
    let items := (sorted.drop ((p.page - 1) * p.per_page)).take p.per_page
    .ok { items := items, total_count := total, page := p.page, per_page := p.per_page }

/-! ## Upload consistency protocol (src/api/version.py lines 135-240 and 361-390) -/

/-- Size limit MAX_FILE_SIZE_BYTES = 15 * 1024 * 1024 (src/api/version.py line 135). -/
def MAX_FILE_SIZE_BYTES : Nat := 15 * 1024 * 1024

/-- Outcome of the aiofiles write of the uploaded bytes, supplied by the
blob store collaborator: success, an IOError, or any other exception. -/
inductive WriteOutcome where
  | ok
  | ioError (msg : String)
  | unexpectedError (msg : String)
deriving DecidableEq, Repr

/-- Outcome of session.add plus commit plus refresh of the new version row,
supplied by the relational store collaborator: success, a ValueError, or
any other exception. -/
inductive InsertOutcome where
  | ok
  | valueError (msg : String)
  | failure
deriving DecidableEq, Repr

/-- Collaborator outcomes for one request. -/
structure Oracles where
  writeOutcome : WriteOutcome := .ok
  insertOutcome : InsertOutcome := .ok
  removeOk : Bool := true
  deleteCommitOk : Bool := true
deriving DecidableEq, Repr

/-- World state threaded through an upload or delete request: database
rows, the set of stored file paths, the process log, the clock, the next
generated uuid and the collaborator oracles. -/
structure World where
  db : DB
  fs : List String := []
  log : List String := []
  now : Nat := 0
  freshUuid : Nat := 1000
  oracles : Oracles := {}
deriving DecidableEq, Repr

/-- Observable effects of add_new_addon_version, in program order:
reading the upload body, hashing it, writing the file, attempting the row
insert and removing the file during cleanup. -/
inductive Event where
  | readUpload
  | hashedContent
  | wroteFile (path : String)
  | insertTried
  | removedFile (path : String)
deriving DecidableEq, Repr

/-- Request data of add_new_addon_version.  fileSize mirrors the optional
UploadFile.size attribute the source consults for the size check; for a
well-formed multipart upload the framework sets it to the byte length of
the content. -/
structure UploadInput where
  addon_uuid : Nat
  version : String
  description : String
  fileContent : List Nat
  fileName : Option String := none
  fileSize : Option Nat := none
  caller : Nat
deriving Repr

/-- Result of one upload request: final world, effect trace, and either
the persisted row or the raised error. -/
structure UploadOutcome where
  world : World
  events : List Event
  result : Except ApiError VersionRow
deriving Repr

/-- On-disk filename: hex digest concatenated with the extracted extension
(src/api/version.py line 185). -/
def fileNameOnDisk (content : List Nat) (filename : Option String) : String :=
  sha256hex content ++ extractedExtension filename

/-- On-disk path: os.path.join(FILES_DIR, file_name_on_disk) with
FILES_DIR = files (src/api/version.py line 186). -/
def filePathOnDisk (content : List Nat) (filename : Option String) : String :=
  "files/" ++ fileNameOnDisk content filename

/-- Download URL derived from the on-disk filename (src/api/version.py line 188). -/
def downloadUrlOf (content : List Nat) (filename : Option String) : String :=
  "/files/" ++ fileNameOnDisk content filename

/-- Lookup of the addon row by uuid (the select of src/api/version.py line 151). -/
def findAddon (db : DB) (u : Nat) : Option AddOnRow :=
  db.addons.find? (fun a => a.uuid == u)

/-- Case-insensitive duplicate label check over versions of one addon
(src/api/version.py lines 158-163). -/
def labelTaken (db : DB) (addonUuid : Nat) (label : String) : Bool :=
  db.versions.any (fun v => v.addon_uuid == addonUuid && lowerString v.version == lowerString label)

/-- Global duplicate hash check (src/api/version.py lines 190-193). -/
def hashTaken (db : DB) (h : String) : Bool :=
  db.versions.any (fun v => v.file_hash == h)

/-- Global duplicate URL check (src/api/version.py lines 196-199). -/
def urlTaken (db : DB) (u : String) : Bool :=
  db.versions.any (fun v => v.download_url == u)

/-- Size rejection test of src/api/version.py line 169: the reported size
is not None and exceeds the limit. -/
def sizeRejected (fileSize : Option Nat) : Bool :=
  match fileSize with
  | some s => decide (s > MAX_FILE_SIZE_BYTES)
  | none => false

/-- Adds a stored path to the filesystem (writing an already present
content-addressed file overwrites it with identical bytes). -/
def insertPath (fs : List String) (p : String) : List String :=
  if p ∈ fs then fs else p :: fs

/-- Removes a stored path from the filesystem (os.remove). -/
def removePath (fs : List String) (p : String) : List String :=
  fs.filter (fun q => q != p)

/-- Log line printed when the cleanup deletion fails
(src/api/version.py lines 228-229 and 236-237). -/
def removeWarning (p : String) : String :=
  "Warning: Could not delete file " ++ p ++ " after DB rollback"

/-- The add_new_addon_version handler (src/api/version.py lines 138-240).
Checks run in source order: addon existence, ownership, duplicate label,
then the upload body is read, the size and emptiness checks run, the
content is hashed and the path and URL derived, the duplicate hash and
duplicate URL checks run, the file is written, and finally the row insert
is attempted; a failed insert rolls back the database and deletes the
just-written file, logging instead of failing when that deletion itself
fails. -/
def add_new_addon_version (w : World) (inp : UploadInput) : UploadOutcome :=
  match findAddon w.db inp.addon_uuid with
  | none => ⟨w, [], .error .addonNotFound⟩
  | some addonObj =>
    if addonObj.user_uuid ≠ inp.caller then ⟨w, [], .error .notAuthor⟩
    else if labelTaken w.db inp.addon_uuid inp.version then
      ⟨w, [], .error (.versionLabelExists inp.version)⟩
    else
      let ev1 : List Event := [.readUpload]
      if sizeRejected inp.fileSize then
        ⟨w, ev1, .error (.fileTooLarge (inp.fileSize.getD 0))⟩
      else if inp.fileContent.isEmpty then ⟨w, ev1, .error .emptyFile⟩
      else
        let fpath := filePathOnDisk inp.fileContent inp.fileName
        let url := downloadUrlOf inp.fileContent inp.fileName
        let ev2 := ev1 ++ [.hashedContent]
        if hashTaken w.db (sha256hex inp.fileContent) then ⟨w, ev2, .error .hashAlreadyUploaded⟩
        else if urlTaken w.db url then ⟨w, ev2, .error .urlInUse⟩
        else
          match w.oracles.writeOutcome with
          | .ioError m => ⟨w, ev2, .error (.fileSaveFailed m)⟩
          | .unexpectedError m => ⟨w, ev2, .error (.fileSaveUnexpected m)⟩
          | .ok =>
            let fs1 := insertPath w.fs fpath
            let ev3 := ev2 ++ [.wroteFile fpath]
            let newRow : VersionRow :=
              { uuid := w.freshUuid, addon_uuid := inp.addon_uuid, version := inp.version,
                description := inp.description, download_url := url,
                file_hash := sha256hex inp.fileContent, created_at := w.now }
            match w.oracles.insertOutcome with
            | .ok =>
              ⟨{ w with fs := fs1, db := { w.db with versions := w.db.versions ++ [newRow] } },
               ev3 ++ [.insertTried], .ok newRow⟩
            | .valueError m =>
              if w.oracles.removeOk then
                ⟨{ w with fs := removePath fs1 fpath },
                 ev3 ++ [.insertTried, .removedFile fpath], .error (.dbInsertValueError m)⟩
              else
                ⟨{ w with fs := fs1, log := w.log ++ [removeWarning fpath] },
                 ev3 ++ [.insertTried], .error (.dbInsertValueError m)⟩
            | .failure =>
              if w.oracles.removeOk then
                ⟨{ w with fs := removePath fs1 fpath },
                 ev3 ++ [.insertTried, .removedFile fpath], .error .dbInsertFailed⟩
              else
                ⟨{ w with fs := fs1, log := w.log ++ [removeWarning fpath] },
                 ev3 ++ [.insertTried], .error .dbInsertFailed⟩

/-- The delete_addon_version handler (src/api/version.py lines 361-390).
After the existence and ownership checks it looks the version row up; the
session.delete call of line 384 is an AsyncSession coroutine method that
the source never awaits, so no deletion is registered with the session and
the subsequent commit persists no change; no filesystem operation occurs
anywhere in the handler. -/
def delete_addon_version (w : World) (addonUuid versionUuid caller : Nat) :
    World × Except ApiError Unit :=
  match findAddon w.db addonUuid with
  | none => (w, .error .addonNotFound)
  | some addonObj =>
    if addonObj.user_uuid ≠ caller then (w, .error .notAuthor)
    else
      match w.db.versions.find? (fun v => v.addon_uuid == addonUuid && v.uuid == versionUuid) with
      | none => (w, .error .versionNotFound)
      | some _ =>
        if w.oracles.deleteCommitOk then (w, .ok ()) else (w, .error .versionDeleteFailed)

/-! ## Claim-side predicates and concrete fixtures for witnesses -/

/-- Modelled from the spec: a row satisfies the conjunction of the type
filter, the owner filter and the search filter, the combined predicate the
specification ascribes to the count query. -/
def rowPassesFilters (ty : Option AddOnType) (uu : Option Nat) (search : Option String)
    (a : AddOnRow) : Bool :=
  (match ty with
   | none => true
   | some t => a.type == t)
  && (match uu with
      | none => true
      | some u => a.user_uuid == u)
  && (match search with
      | none => true
      | some s =>
        if s = "" then true
        else
          let terms := searchTermsOf s
          if terms.isEmpty then true
          else terms.any (fun t => termMatchesRow t a))

/-- Discriminates the ok outcome of a catalog listing. -/
def exceptIsOk : Except ApiError AddOnListResponse → Bool
  | .ok _ => true
  | .error _ => false

deriving instance DecidableEq for Except

/-- Concrete addon row for witnesses. -/
def sampleAddon : AddOnRow :=
  { uuid := 1, user_uuid := 10, name := "Alpha Mod", type := .Mod,
    short_description := "fast shaders", description := "a big mod pack",
    downloads := 5, publish_date := 100, update_date := 200 }

/-- Second concrete addon row for witnesses. -/
def sampleAddon2 : AddOnRow :=
  { uuid := 2, user_uuid := 11, name := "Beta Pack", type := .ResourcePack,
    short_description := "cool textures", description := "resource textures here",
    downloads := 3, publish_date := 150, update_date := 250 }

/-- Concrete database with two addons, one like and no versions. -/
def sampleDB : DB :=
  { addons := [sampleAddon, sampleAddon2],
    likes := [{ uuid := 1, user_uuid := 11, addon_uuid := 1, created_at := 0 }],
    versions := [] }

/-- Concrete world around sampleDB with all collaborator calls succeeding. -/
def sampleWorld : World := { db := sampleDB }

/-- Concrete upload request by the owner of addon 1. -/
def sampleUpload : UploadInput :=
  { addon_uuid := 1, version := "1.0", description := "first release",
    fileContent := [1, 2, 3], fileName := some "m.zip", fileSize := some 3, caller := 10 }

/-- Row whose name matches the LIKE pattern a_c without containing the
substring a_c. -/
def wildcardRow : AddOnRow :=
  { uuid := 3, user_uuid := 10, name := "abc", type := .Mod,
    short_description := "zzzz zzzz zz", description := "zzzz zzzz zzzz zzzz zzzz",
    downloads := 0, publish_date := 0, update_date := 0 }

/-- Database holding only wildcardRow. -/
def wildcardDB : DB := { addons := [wildcardRow], likes := [], versions := [] }

/-- Existing version row of another addon storing the same bytes as
sampleUpload. -/
def dupHashVersion : VersionRow :=
  { uuid := 5, addon_uuid := 2, version := "0.9", description := "old build",
    download_url := "/files/other", file_hash := sha256hex [1, 2, 3], created_at := 0 }

/-- World in which the uploaded bytes of sampleUpload are already stored. -/
def dupHashWorld : World := { db := { sampleDB with versions := [dupHashVersion] } }

/-- Existing version row of addon 1 with label V1. -/
def labelVersion : VersionRow :=
  { uuid := 6, addon_uuid := 1, version := "V1", description := "first build",
    download_url := "/files/older", file_hash := "unrelated", created_at := 0 }

/-- World in which addon 1 already has a version labelled V1. -/
def labelWorld : World := { db := { sampleDB with versions := [labelVersion] } }

/-- World whose row insert fails while cleanup deletion succeeds. -/
def failingInsertWorld : World :=
  { db := sampleDB, oracles := { insertOutcome := .failure } }

/-- World whose row insert fails and whose cleanup deletion also fails. -/
def failingInsertNoRemoveWorld : World :=
  { db := sampleDB, oracles := { insertOutcome := .failure, removeOk := false } }

/-- Upload request one byte over the size limit, with the framework-reported
size equal to the content length. -/
def oversizedUpload : UploadInput :=
  { addon_uuid := 1, version := "2.0", description := "too big build",
    fileContent := List.replicate (MAX_FILE_SIZE_BYTES + 1) 0,
    fileName := some "big.zip", fileSize := some (MAX_FILE_SIZE_BYTES + 1), caller := 10 }

/-- Upload request with an empty body. -/
def emptyUpload : UploadInput :=
  { addon_uuid := 1, version := "3.0", description := "empty build",
    fileContent := [], fileName := some "e.zip", fileSize := some 0, caller := 10 }

/-- Response get_addons returns on sampleDB with default parameters. -/
def sampleListResponse : AddOnListResponse :=
  { items := [(sampleAddon, 1), (sampleAddon2, 0)], total_count := 2, page := 1, per_page := 10 }

/-- Version row of addon 1 whose stored file is files/h.zip. -/
def deleteTargetVersion : VersionRow :=
  { uuid := 5, addon_uuid := 1, version := "0.9", description := "old build",
    download_url := "/files/h.zip", file_hash := "h", created_at := 0 }

/-- World holding deleteTargetVersion and its stored file. -/
def deleteWorld : World :=
  { db := { sampleDB with versions := [deleteTargetVersion] }, fs := ["files/h.zip"] }

/-- Existing version row of another addon occupying the URL that the bytes
of sampleUpload would be stored under, while holding a different hash. -/
def dupUrlVersion : VersionRow :=
  { uuid := 7, addon_uuid := 2, version := "0.5", description := "older build",
    download_url := downloadUrlOf [1, 2, 3] (some "m.zip"), file_hash := "other", created_at := 0 }

/-- World in which the derived URL of sampleUpload is already in use. -/
def dupUrlWorld : World := { db := { sampleDB with versions := [dupUrlVersion] } }

/-! ## Theorems -/

/-- The relevance fold equals the per-term weighted sum from any
accumulator. -/
theorem relevance_foldl_eq (a : AddOnRow) (terms : List String) (n : Nat) :
    terms.foldl
      (fun acc t =>
        acc + (if ilikeContains t a.name then 3 else 0)
            + (if ilikeContains t a.short_description then 2 else 0)
            + (if ilikeContains t a.description then 1 else 0)) n
      = n + pairSum terms a := by
  induction terms generalizing n with
  | nil => simp [pairSum]
  | cons t ts ih => simp [pairSum, List.map_cons, List.sum_cons, ih]; omega

/-- Relevance fold versus per-term sum. -/
theorem rowRelevance_eq_pairSum (terms : List String) (a : AddOnRow) :
    rowRelevance terms a = pairSum terms a := by
  simpa [rowRelevance] using relevance_foldl_eq a terms 0

/-- A search string with at least one term is nonempty. -/
theorem searchTerms_ne_nil_imp (s : String) (h : searchTermsOf s ≠ []) : s ≠ "" := by
  intro he
  subst he
  exact h (by decide)

/-- C1 (amended): for every search string that splits into at least one
term, a row passes the search filter iff some term matches some of the
three text fields under the case-insensitive SQL LIKE test of the source
(underscore and percent inside a term act as wildcards; for terms without
wildcard characters the test coincides with substring containment), and
the relevance expression equals the per-term per-field weighted sum with
weights 3, 2 and 1.  A whitespace-only search string produces no terms and
applies no filter at all. -/
theorem c1_search_filter_and_score (db : DB) (s : String) (h : searchTermsOf s ≠ []) :
    (∀ a : AddOnRow,
       a ∈ searchFilteredOf db (some s) ↔
         a ∈ db.addons ∧ (searchTermsOf s).any (fun t => termMatchesRow t a) = true)
    ∧ (∀ a : AddOnRow, rowRelevance (searchTermsOf s) a = pairSum (searchTermsOf s) a) := by
  have hs : s ≠ "" := searchTerms_ne_nil_imp s h
  constructor
  · intro a
    simp [searchFilteredOf, List.isEmpty_iff, hs, h, List.mem_filter]
  · intro a
    exact rowRelevance_eq_pairSum _ a

/-- C1 witness: instantiation at the search string mod over sampleDB. -/
theorem c1_search_filter_and_score_witness :
    searchTermsOf "mod" ≠ [] ∧
    ((∀ a : AddOnRow,
        a ∈ searchFilteredOf sampleDB (some "mod") ↔
          a ∈ sampleDB.addons ∧ (searchTermsOf "mod").any (fun t => termMatchesRow t a) = true)
     ∧ (∀ a : AddOnRow, rowRelevance (searchTermsOf "mod") a = pairSum (searchTermsOf "mod") a)) :=
  ⟨by decide, c1_search_filter_and_score sampleDB "mod" (by decide)⟩

/-- C1 counterexample: with search string a_c the underscore acts as a SQL
LIKE wildcard, so the row named abc is kept by the filter with score 3
although a_c is not a case-insensitive substring of any of its three
fields, contradicting the substring reading of the claim. -/
theorem c1_substring_counterexample :
    searchTermsOf "a_c" = ["a_c"]
    ∧ substrCI "a_c" wildcardRow.name = false
    ∧ substrCI "a_c" wildcardRow.short_description = false
    ∧ substrCI "a_c" wildcardRow.description = false
    ∧ searchFilteredOf wildcardDB (some "a_c") = [wildcardRow]
    ∧ rowRelevance ["a_c"] wildcardRow = 3 := by
  decide

/-- Append on strings acts as append on their character lists. -/
theorem string_append_data (a b : String) : (a ++ b).data = a.data ++ b.data := rfl

/-- C4 (amended): the stored path and the download URL are determined by
the file bytes together with the extension extracted from the uploaded
filename: equal bytes and equal extracted extensions give equal path and
URL, independently of upload time, version label, caller and every other
input.  Identical bytes alone do not suffice when the filename extensions
differ. -/
theorem c4_path_content_addressed (c : List Nat) (f1 f2 : Option String)
    (hext : extractedExtension f1 = extractedExtension f2) :
    filePathOnDisk c f1 = filePathOnDisk c f2 ∧ downloadUrlOf c f1 = downloadUrlOf c f2 := by
  unfold filePathOnDisk downloadUrlOf fileNameOnDisk
  rw [hext]
  exact ⟨rfl, rfl⟩

/-- C4 witness: the same bytes with filenames alpha.zip and beta.zip share
the stored path and the URL. -/
theorem c4_path_content_addressed_witness :
    extractedExtension (some "alpha.zip") = extractedExtension (some "beta.zip")
    ∧ (filePathOnDisk [1, 2, 3] (some "alpha.zip") = filePathOnDisk [1, 2, 3] (some "beta.zip")
       ∧ downloadUrlOf [1, 2, 3] (some "alpha.zip") = downloadUrlOf [1, 2, 3] (some "beta.zip")) :=
  ⟨by decide, c4_path_content_addressed [1, 2, 3] (some "alpha.zip") (some "beta.zip") (by decide)⟩

/-- C4 counterexample: identical bytes uploaded under the filenames mod.zip
and mod.jar are stored at different paths, because the original filename
extension enters the storage path. -/
theorem c4_extension_counterexample :
    filePathOnDisk [1, 2, 3] (some "mod.zip") ≠ filePathOnDisk [1, 2, 3] (some "mod.jar") := by
  unfold filePathOnDisk fileNameOnDisk
  have hz : extractedExtension (some "mod.zip") = ".zip" := by decide
  have hj : extractedExtension (some "mod.jar") = ".jar" := by decide
  rw [hz, hj]
  intro he
  have hd : "files/".data ++ ((sha256hex [1, 2, 3]).data ++ ".zip".data)
      = "files/".data ++ ((sha256hex [1, 2, 3]).data ++ ".jar".data) := by
    simpa [string_append_data] using congrArg String.data he
  have h2 := List.append_cancel_left hd
  have h3 := List.append_cancel_left h2
  exact absurd h3 (by decide)

/-- C5: the route regex declares name a sortable field, but the
sortable_fields dispatch of the handler omits it, so sorting by name is
rejected with the not-sortable client error naming the available fields,
while the four other declared fields are accepted and follow the requested
direction. -/
theorem c5_name_sort_rejected :
    get_addons sampleDB { sort_by := "name" } =
      .error (.fieldNotSortable "name" ["publish_date", "downloads", "update_date", "likes_count"])
    ∧ "name" ∈ sortByRegexValues
    ∧ exceptIsOk (get_addons sampleDB { sort_by := "publish_date" }) = true
    ∧ exceptIsOk (get_addons sampleDB { sort_by := "update_date" }) = true
    ∧ exceptIsOk (get_addons sampleDB { sort_by := "likes_count" }) = true
    ∧ get_addons sampleDB { sort_by := "downloads", sort_order := "desc" } =
        .ok { items := [(sampleAddon, 1), (sampleAddon2, 0)],
              total_count := 2, page := 1, per_page := 10 }
    ∧ get_addons sampleDB { sort_by := "downloads", sort_order := "asc" } =
        .ok { items := [(sampleAddon2, 0), (sampleAddon, 1)],
              total_count := 2, page := 1, per_page := 10 } := by
  decide

/-- C6 (amended): the relevance-needs-search rule tests Python truthiness
of the search parameter, not the presence of search terms.  With the
search parameter absent or empty, sort_by relevance is rejected with the
relevance-needs-search client error; with a search string containing at
least one term, relevance is an accepted sort key; with a nonempty but
whitespace-only search string producing no terms, the request instead
fails with the 500 internal error arising when the ordering layer rejects
the plain integer 0 relevance expression — not with the InvalidInput
client error. -/
theorem c6_relevance_requires_truthy_search (db : DB) (p : ListParams)
    (hso : p.sort_order ∈ ["asc", "desc"]) (hsb : p.sort_by = "relevance") :
    (searchIsActive p.search = false → get_addons db p = .error .relevanceWithoutSearch)
    ∧ (∀ s, p.search = some s → searchTermsOf s ≠ [] →
        exceptIsOk (get_addons db p) = true)
    ∧ (∀ s, p.search = some s → s ≠ "" → searchTermsOf s = [] →
        get_addons db p = .error .orderByIntArgument)
    ∧ ApiError.relevanceWithoutSearch.statusCode = 400
    ∧ ApiError.orderByIntArgument.statusCode = 500 := by
  refine ⟨?_, ?_, ?_, rfl, rfl⟩
  · intro hin
    simp [get_addons, hsb, hso, hin, sortByRegexValues]
  · intro s hs hterm
    have hne : s ≠ "" := searchTerms_ne_nil_imp s hterm
    simp [get_addons, hsb, hso, hs, searchIsActive, hne, termsOfParam, List.isEmpty_iff,
          hterm, sortByRegexValues, availableSortFields, baseSortableFields, exceptIsOk]
  · intro s hs hne hterm
    simp [get_addons, hsb, hso, hs, searchIsActive, hne, termsOfParam, List.isEmpty_iff,
          hterm, sortByRegexValues, availableSortFields, baseSortableFields]

/-- C6 witness: instantiations with no search parameter, with the search
string mod, and with the whitespace-only search string. -/
theorem c6_relevance_requires_truthy_search_witness :
    (searchIsActive (none : Option String) = false
      ∧ get_addons sampleDB { sort_by := "relevance" } = .error .relevanceWithoutSearch)
    ∧ (searchTermsOf "mod" ≠ []
      ∧ exceptIsOk (get_addons sampleDB { sort_by := "relevance", search := some "mod" }) = true)
    ∧ (searchTermsOf " " = []
      ∧ get_addons sampleDB { sort_by := "relevance", search := some " " }
          = .error .orderByIntArgument) := by
  refine ⟨⟨by decide, ?_⟩, ⟨by decide, ?_⟩, ⟨by decide, ?_⟩⟩
  · exact (c6_relevance_requires_truthy_search sampleDB { sort_by := "relevance" }
      (by decide) rfl).1 (by decide)
  · exact (c6_relevance_requires_truthy_search sampleDB
      { sort_by := "relevance", search := some "mod" } (by decide) rfl).2.1 "mod" rfl (by decide)
  · exact (c6_relevance_requires_truthy_search sampleDB
      { sort_by := "relevance", search := some " " } (by decide) rfl).2.2.1 " " rfl
      (by decide) (by decide)

/-- C6 counterexample: a whitespace-only search string contains no search
term, yet the request does not fail with the InvalidInput
relevance-needs-search client error the claim demands: the plain integer
relevance expression is rejected by the ordering layer and surfaces as a
500 internal error, so the request neither raises InvalidInput nor
succeeds. -/
theorem c6_whitespace_search_counterexample :
    searchTermsOf " " = []
    ∧ get_addons sampleDB { sort_by := "relevance", search := some " " }
        = .error .orderByIntArgument
    ∧ ApiError.orderByIntArgument.statusCode = 500
    ∧ get_addons sampleDB { sort_by := "relevance", search := some " " }
        ≠ .error .relevanceWithoutSearch
    ∧ exceptIsOk (get_addons sampleDB { sort_by := "relevance", search := some " " }) = false := by
  decide

/-- C7: the upload preconditions run in source order with the first
failure winning: missing addon gives not-found, foreign addon gives
forbidden, a case-insensitively duplicated label gives the duplicate-label
error before the upload body is even read (empty effect trace, hence
before any hashing or file IO), and the size and emptiness checks follow
the body read; in every failing case the world comes back unchanged, so no
file is written and no row is inserted. -/
theorem c7_precondition_order (w : World) (inp : UploadInput) :
    (findAddon w.db inp.addon_uuid = none →
      add_new_addon_version w inp = ⟨w, [], .error .addonNotFound⟩)
    ∧ (∀ addonObj, findAddon w.db inp.addon_uuid = some addonObj →
        addonObj.user_uuid ≠ inp.caller →
        add_new_addon_version w inp = ⟨w, [], .error .notAuthor⟩)
    ∧ (∀ addonObj, findAddon w.db inp.addon_uuid = some addonObj →
        addonObj.user_uuid = inp.caller →
        labelTaken w.db inp.addon_uuid inp.version = true →
        add_new_addon_version w inp = ⟨w, [], .error (.versionLabelExists inp.version)⟩)
    ∧ (∀ addonObj, findAddon w.db inp.addon_uuid = some addonObj →
        addonObj.user_uuid = inp.caller →
        labelTaken w.db inp.addon_uuid inp.version = false →
        sizeRejected inp.fileSize = true →
        add_new_addon_version w inp =
          ⟨w, [.readUpload], .error (.fileTooLarge (inp.fileSize.getD 0))⟩)
    ∧ (∀ addonObj, findAddon w.db inp.addon_uuid = some addonObj →
        addonObj.user_uuid = inp.caller →
        labelTaken w.db inp.addon_uuid inp.version = false →
        sizeRejected inp.fileSize = false →
        inp.fileContent.isEmpty = true →
        add_new_addon_version w inp = ⟨w, [.readUpload], .error .emptyFile⟩) := by
  refine ⟨?_, ?_, ?_, ?_, ?_⟩
  · intro h
    simp [add_new_addon_version, h]
  · intro a ha hne
    simp [add_new_addon_version, ha, hne]
  · intro a ha heq hlab
    simp [add_new_addon_version, ha, heq, hlab]
  · intro a ha heq hlab hsz
    simp [add_new_addon_version, ha, heq, hlab, hsz]
  · intro a ha heq hlab hsz hemp
    simp [add_new_addon_version, ha, heq, hlab, hsz, hemp]

/-- C7 witness: one instantiation per precondition failure. -/
theorem c7_precondition_order_witness :
    add_new_addon_version sampleWorld { sampleUpload with addon_uuid := 99 }
      = ⟨sampleWorld, [], .error .addonNotFound⟩
    ∧ add_new_addon_version sampleWorld { sampleUpload with caller := 99 }
      = ⟨sampleWorld, [], .error .notAuthor⟩
    ∧ add_new_addon_version labelWorld { sampleUpload with version := "v1" }
      = ⟨labelWorld, [], .error (.versionLabelExists "v1")⟩
    ∧ add_new_addon_version sampleWorld oversizedUpload
      = ⟨sampleWorld, [.readUpload], .error (.fileTooLarge (oversizedUpload.fileSize.getD 0))⟩
    ∧ add_new_addon_version sampleWorld emptyUpload
      = ⟨sampleWorld, [.readUpload], .error .emptyFile⟩ :=
  ⟨(c7_precondition_order sampleWorld { sampleUpload with addon_uuid := 99 }).1 (by decide),
   (c7_precondition_order sampleWorld { sampleUpload with caller := 99 }).2.1
     sampleAddon (by decide) (by decide),
   (c7_precondition_order labelWorld { sampleUpload with version := "v1" }).2.2.1
     sampleAddon (by decide) (by decide) (by decide),
   (c7_precondition_order sampleWorld oversizedUpload).2.2.2.1
     sampleAddon (by decide) (by decide) (by decide) (by decide),
   (c7_precondition_order sampleWorld emptyUpload).2.2.2.2
     sampleAddon (by decide) (by decide) (by decide) (by decide) (by decide)⟩

/-- C8: with the framework-reported size equal to the byte length (the
invariant the multipart parser guarantees for UploadFile.size), an upload
whose bytes number more than 15 MiB fails with the client error carrying
the measured size, and an upload with empty bytes fails with the
empty-file client error; both failures happen directly after the body
read, before any hashing, disk write or row insert, with the world
returned unchanged. -/
theorem c8_size_limits (w : World) (inp : UploadInput) (addonObj : AddOnRow)
    (h1 : findAddon w.db inp.addon_uuid = some addonObj)
    (h2 : addonObj.user_uuid = inp.caller)
    (h3 : labelTaken w.db inp.addon_uuid inp.version = false)
    (hsz : inp.fileSize = some inp.fileContent.length) :
    (inp.fileContent.length > MAX_FILE_SIZE_BYTES →
      add_new_addon_version w inp =
        ⟨w, [.readUpload], .error (.fileTooLarge inp.fileContent.length)⟩)
    ∧ (inp.fileContent = [] →
      add_new_addon_version w inp = ⟨w, [.readUpload], .error .emptyFile⟩) := by
  constructor
  · intro hbig
    have hrej : sizeRejected (some inp.fileContent.length) = true := by
      simp [sizeRejected, hbig]
    simp [add_new_addon_version, h1, h2, h3, hsz, hrej]
  · intro hemp
    have hrej : sizeRejected (some (0 : Nat)) = false := by decide
    simp [add_new_addon_version, h1, h2, h3, hsz, hemp, hrej]

/-- C8 witness: instantiations one byte over the limit and with an empty
body. -/
theorem c8_size_limits_witness :
    add_new_addon_version sampleWorld oversizedUpload
      = ⟨sampleWorld, [.readUpload], .error (.fileTooLarge oversizedUpload.fileContent.length)⟩
    ∧ add_new_addon_version sampleWorld emptyUpload
      = ⟨sampleWorld, [.readUpload], .error .emptyFile⟩ :=
  ⟨(c8_size_limits sampleWorld oversizedUpload sampleAddon (by decide) (by decide) (by decide)
      (by simp [oversizedUpload])).1
      (by show (List.replicate (MAX_FILE_SIZE_BYTES + 1) 0).length > MAX_FILE_SIZE_BYTES
          rw [List.length_replicate]
          omega),
   (c8_size_limits sampleWorld emptyUpload sampleAddon (by decide) (by decide) (by decide)
      (by decide)).2 rfl⟩

/-- C2: when every upstream check passes, the file write succeeds and the
row insert then fails, the handler rolls the database back and surfaces
the insert-derived error: a ValueError surfaces as the bad-request error
carrying its message and any other failure as the internal error.  With a
working os.remove the just-written path is absent from the final
filesystem and the log is untouched; when the deletion itself fails the
file stays, a warning line is appended to the log, and the surfaced error
is still the insert-derived one. -/
theorem c2_insert_failure_cleanup (w : World) (inp : UploadInput) (addonObj : AddOnRow)
    (h1 : findAddon w.db inp.addon_uuid = some addonObj)
    (h2 : addonObj.user_uuid = inp.caller)
    (h3 : labelTaken w.db inp.addon_uuid inp.version = false)
    (h4 : sizeRejected inp.fileSize = false)
    (h5 : inp.fileContent.isEmpty = false)
    (h6 : hashTaken w.db (sha256hex inp.fileContent) = false)
    (h7 : urlTaken w.db (downloadUrlOf inp.fileContent inp.fileName) = false)
    (h8 : w.oracles.writeOutcome = .ok)
    (h9 : w.oracles.insertOutcome ≠ .ok) :
    (add_new_addon_version w inp).world.db = w.db
    ∧ (∀ m, w.oracles.insertOutcome = .valueError m →
        (add_new_addon_version w inp).result = .error (.dbInsertValueError m))
    ∧ (w.oracles.insertOutcome = .failure →
        (add_new_addon_version w inp).result = .error .dbInsertFailed)
    ∧ (w.oracles.removeOk = true →
        filePathOnDisk inp.fileContent inp.fileName ∉ (add_new_addon_version w inp).world.fs
        ∧ (add_new_addon_version w inp).world.log = w.log)
    ∧ (w.oracles.removeOk = false →
        (add_new_addon_version w inp).world.fs
          = insertPath w.fs (filePathOnDisk inp.fileContent inp.fileName)
        ∧ (add_new_addon_version w inp).world.log
          = w.log ++ [removeWarning (filePathOnDisk inp.fileContent inp.fileName)]) := by
  refine ⟨?_, ?_, ?_, ?_, ?_⟩
  · cases hio : w.oracles.insertOutcome with
    | ok => exact absurd hio h9
    | valueError m =>
      cases hro : w.oracles.removeOk <;>
        simp [add_new_addon_version, h1, h2, h3, h4, h5, h6, h7, h8, hio, hro]
    | failure =>
      cases hro : w.oracles.removeOk <;>
        simp [add_new_addon_version, h1, h2, h3, h4, h5, h6, h7, h8, hio, hro]
  · intro m hm
    cases hro : w.oracles.removeOk <;>
      simp [add_new_addon_version, h1, h2, h3, h4, h5, h6, h7, h8, hm, hro]
  · intro hf
    cases hro : w.oracles.removeOk <;>
      simp [add_new_addon_version, h1, h2, h3, h4, h5, h6, h7, h8, hf, hro]
  · intro hro
    cases hio : w.oracles.insertOutcome with
    | ok => exact absurd hio h9
    | valueError m =>
      constructor
      · simp [add_new_addon_version, h1, h2, h3, h4, h5, h6, h7, h8, hio, hro, removePath]
      · simp [add_new_addon_version, h1, h2, h3, h4, h5, h6, h7, h8, hio, hro]
    | failure =>
      constructor
      · simp [add_new_addon_version, h1, h2, h3, h4, h5, h6, h7, h8, hio, hro, removePath]
      · simp [add_new_addon_version, h1, h2, h3, h4, h5, h6, h7, h8, hio, hro]
  · intro hro
    cases hio : w.oracles.insertOutcome with
    | ok => exact absurd hio h9
    | valueError m =>
      constructor <;>
        simp [add_new_addon_version, h1, h2, h3, h4, h5, h6, h7, h8, hio, hro]
    | failure =>
      constructor <;>
        simp [add_new_addon_version, h1, h2, h3, h4, h5, h6, h7, h8, hio, hro]

/-- C2 witness: instantiations with a failing insert, once with a working
cleanup deletion and once with a failing one. -/
theorem c2_insert_failure_cleanup_witness :
    failingInsertWorld.oracles.insertOutcome = .failure
    ∧ (add_new_addon_version failingInsertWorld sampleUpload).result = .error .dbInsertFailed
    ∧ filePathOnDisk sampleUpload.fileContent sampleUpload.fileName
        ∉ (add_new_addon_version failingInsertWorld sampleUpload).world.fs
    ∧ (add_new_addon_version failingInsertNoRemoveWorld sampleUpload).result
        = .error .dbInsertFailed
    ∧ (add_new_addon_version failingInsertNoRemoveWorld sampleUpload).world.log
        = failingInsertNoRemoveWorld.log
          ++ [removeWarning (filePathOnDisk sampleUpload.fileContent sampleUpload.fileName)] :=
  ⟨rfl,
   (c2_insert_failure_cleanup failingInsertWorld sampleUpload sampleAddon
      (by decide) (by decide) (by decide) (by decide) rfl rfl rfl rfl (by decide)).2.2.1 rfl,
   ((c2_insert_failure_cleanup failingInsertWorld sampleUpload sampleAddon
      (by decide) (by decide) (by decide) (by decide) rfl rfl rfl rfl (by decide)).2.2.2.1 rfl).1,
   (c2_insert_failure_cleanup failingInsertNoRemoveWorld sampleUpload sampleAddon
      (by decide) (by decide) (by decide) (by decide) rfl rfl rfl rfl (by decide)).2.2.1 rfl,
   ((c2_insert_failure_cleanup failingInsertNoRemoveWorld sampleUpload sampleAddon
      (by decide) (by decide) (by decide) (by decide) rfl rfl rfl rfl (by decide)).2.2.2.2 rfl).2⟩

/-- C3: with the earlier checks passing, an upload whose bytes hash to a
digest already present in some version row is rejected with the
duplicate-hash error, and an upload whose derived URL collides with an
existing row is rejected with the duplicate-URL error, the hash check
running first; in both cases the handler returns the world unchanged, so
no file is written, as the effect trace of the returned outcome also
records. -/
theorem c3_dedup_rejected_before_write (w : World) (inp : UploadInput) (addonObj : AddOnRow)
    (h1 : findAddon w.db inp.addon_uuid = some addonObj)
    (h2 : addonObj.user_uuid = inp.caller)
    (h3 : labelTaken w.db inp.addon_uuid inp.version = false)
    (h4 : sizeRejected inp.fileSize = false)
    (h5 : inp.fileContent.isEmpty = false) :
    (hashTaken w.db (sha256hex inp.fileContent) = true →
      add_new_addon_version w inp
        = ⟨w, [.readUpload, .hashedContent], .error .hashAlreadyUploaded⟩)
    ∧ (hashTaken w.db (sha256hex inp.fileContent) = false →
       urlTaken w.db (downloadUrlOf inp.fileContent inp.fileName) = true →
      add_new_addon_version w inp = ⟨w, [.readUpload, .hashedContent], .error .urlInUse⟩) := by
  constructor
  · intro h6
    simp [add_new_addon_version, h1, h2, h3, h4, h5, h6]
  · intro h6 h7
    simp [add_new_addon_version, h1, h2, h3, h4, h5, h6, h7]

set_option maxRecDepth 200000 in
/-- C3 witness: instantiations over a database already holding the same
bytes under another version, and over one already occupying the derived
URL with a different hash. -/
theorem c3_dedup_rejected_before_write_witness :
    add_new_addon_version dupHashWorld sampleUpload
      = ⟨dupHashWorld, [.readUpload, .hashedContent], .error .hashAlreadyUploaded⟩
    ∧ add_new_addon_version dupUrlWorld sampleUpload
      = ⟨dupUrlWorld, [.readUpload, .hashedContent], .error .urlInUse⟩ :=
  ⟨(c3_dedup_rejected_before_write dupHashWorld sampleUpload sampleAddon
      (by decide) (by decide) (by decide) (by decide) rfl).1
      (by simp [hashTaken, dupHashWorld, dupHashVersion, sampleDB, sampleUpload]),
   (c3_dedup_rejected_before_write dupUrlWorld sampleUpload sampleAddon
      (by decide) (by decide) (by decide) (by decide) rfl).2
      (by decide)
      (by simp [urlTaken, dupUrlWorld, dupUrlVersion, sampleDB, sampleUpload])⟩

/-- The sequentially applied where clauses of the count query compute the
conjunction of the three filters. -/
theorem countQueryRows_eq_filter (db : DB) (ty : Option AddOnType) (uu : Option Nat)
    (search : Option String) :
    countQueryRows db ty uu search = db.addons.filter (rowPassesFilters ty uu search) := by
  unfold countQueryRows rowPassesFilters
  cases search with
  | none =>
    cases ty <;> cases uu <;>
      simp [List.filter_filter, Bool.and_comm, Bool.and_left_comm, Bool.and_assoc]
  | some s =>
    by_cases hs : s = ""
    · cases ty <;> cases uu <;>
        simp [hs, List.filter_filter, Bool.and_comm, Bool.and_left_comm, Bool.and_assoc]
    · by_cases ht : searchTermsOf s = []
      · cases ty <;> cases uu <;>
          simp [hs, ht, List.isEmpty_iff, List.filter_filter,
                Bool.and_comm, Bool.and_left_comm, Bool.and_assoc]
      · cases ty <;> cases uu <;>
          simp [hs, ht, List.isEmpty_iff, List.filter_filter,
                Bool.and_comm, Bool.and_left_comm, Bool.and_assoc]

/-- The count query rows form a sublist of the addon table. -/
theorem countQueryRows_sublist (db : DB) (ty : Option AddOnType) (uu : Option Nat)
    (search : Option String) :
    List.Sublist (countQueryRows db ty uu search) db.addons := by
  rw [countQueryRows_eq_filter]
  exact List.filter_sublist _

/-- Under pairwise distinct addon uuids the distinct count of the count
query equals the number of rows passing the combined filter. -/
theorem totalCountOf_eq_length (db : DB) (ty : Option AddOnType) (uu : Option Nat)
    (search : Option String) (hnd : (db.addons.map (fun a => a.uuid)).Nodup) :
    totalCountOf db ty uu search
      = (db.addons.filter (rowPassesFilters ty uu search)).length := by
  unfold totalCountOf
  have hnd2 : ((countQueryRows db ty uu search).map (fun a => a.uuid)).Nodup :=
    ((countQueryRows_sublist db ty uu search).map _).nodup hnd
  rw [List.dedup_eq_self.2 hnd2, List.length_map, countQueryRows_eq_filter]

/-- An accepted listing request reports the total of the count query,
whatever its other parameters. -/
theorem get_addons_total (db : DB) (q : ListParams) (r : AddOnListResponse)
    (h : get_addons db q = .ok r) :
    r.total_count = totalCountOf db q.type q.user_uuid q.search := by
  unfold get_addons at h
  split at h
  · simp at h
  split at h
  · simp at h
  split at h
  · simp at h
  split at h
  · simp at h
  split at h
  · simp at h
  simp only [Except.ok.injEq] at h
  subst h
  rfl

/-- C9: for an accepted listing request over a table with pairwise
distinct addon uuids, the returned page is exactly the window of the
filtered ordered row sequence starting at offset (page - 1) * per_page,
its length is at most per_page, the total count equals the number of rows
satisfying the conjunction of the type, owner and search filters, and the
total count does not depend on the page or per_page parameters. -/
theorem c9_pagination_and_total (db : DB) (p : ListParams) (r : AddOnListResponse)
    (hnd : (db.addons.map (fun a => a.uuid)).Nodup)
    (hr : get_addons db p = .ok r) :
    r.items = ((orderedRows db p).drop ((p.page - 1) * p.per_page)).take p.per_page
    ∧ r.items.length ≤ p.per_page
    ∧ r.total_count = (db.addons.filter (rowPassesFilters p.type p.user_uuid p.search)).length
    ∧ (∀ (pg pp : Nat) (r2 : AddOnListResponse),
        get_addons db { p with page := pg, per_page := pp } = .ok r2 →
        r2.total_count = r.total_count) := by
  have htot : r.total_count = totalCountOf db p.type p.user_uuid p.search :=
    get_addons_total db p r hr
  unfold get_addons at hr
  split at hr
  · simp at hr
  split at hr
  · simp at hr
  split at hr
  · simp at hr
  split at hr
  · simp at hr
  split at hr
  · simp at hr
  simp only [Except.ok.injEq] at hr
  subst hr
  refine ⟨rfl, ?_, ?_, ?_⟩
  · exact List.length_take_le _ _
  · exact totalCountOf_eq_length db p.type p.user_uuid p.search hnd
  · intro pg pp r2 h2
    have h3 := get_addons_total db { p with page := pg, per_page := pp } r2 h2
    simpa using h3

/-- C9 witness: instantiation over sampleDB with the default parameters. -/
theorem c9_pagination_and_total_witness :
    (sampleDB.addons.map (fun a => a.uuid)).Nodup
    ∧ get_addons sampleDB {} = .ok sampleListResponse
    ∧ sampleListResponse.total_count
        = (sampleDB.addons.filter (rowPassesFilters none none none)).length
    ∧ sampleListResponse.items.length ≤ 10 := by
  refine ⟨by decide, by decide, ?_, ?_⟩
  · exact (c9_pagination_and_total sampleDB {} sampleListResponse (by decide) (by decide)).2.2.1
  · exact (c9_pagination_and_total sampleDB {} sampleListResponse (by decide) (by decide)).2.1

/-- C10 (code divergence): deleting an existing version by its owner
returns success while leaving the whole world unchanged.  The stored file
survives, as the claim states, but so does the version row: the
session.delete call is an AsyncSession coroutine that the handler never
awaits, so the commit persists no deletion. -/
theorem c10_delete_leaves_world_unchanged :
    (delete_addon_version deleteWorld 1 5 10).2 = .ok ()
    ∧ (delete_addon_version deleteWorld 1 5 10).1 = deleteWorld
    ∧ deleteTargetVersion ∈ (delete_addon_version deleteWorld 1 5 10).1.db.versions
    ∧ "files/h.zip" ∈ (delete_addon_version deleteWorld 1 5 10).1.fs := by
  decide
